import Mathlib

/-!
Shallow embedding of `torre.py` (airport tower CLI): the queue model, the
enqueue command (`cmd_enfileirar`) and the authorization command
(`cmd_autorizar`), together with the helper rules they use
(`find_plan_by_voo`, `notam_blocks_pista`, `active_metar_for_now`,
`can_operate_due_to_vis`, `piloto_valido_for_aeronave`).

Modelling conventions:
* Times of day (`parse_hhmm` results) are minutes since midnight as `Nat`;
  zero-padded `HH:MM` strings compare lexicographically exactly as their
  minute values compare, so the string comparisons of the source on such
  fields are modelled as `Nat` comparisons.
* Absolute timestamps (the `datetime` values used by the trailing-10-minute
  low-visibility check) are minutes as `Int`.
* The queue files `fila_decolagem.txt` / `fila_pouso.txt` are modelled as the
  in-memory lists they serialize: `load_queue`/`save_queue` round-trip the
  record fields, so persistence is carried as explicit list-valued state.
* Python's `list.sort(key=...)` is a stable sort; `List.insertionSort` over
  the same total preorder computes the identical stable result.
-/

namespace Torre

/-- A row of `planos_voo.csv` as produced by `read_planos` (with `etd`/`eta`
already parsed to times and `prioridade` to an integer). -/
structure Plano where
  voo : String
  origem : String
  destino : String
  etd : Nat
  eta : Nat
  aeronave : String
  tipo : String
  prioridade : Int
  pista_pref : String
deriving DecidableEq

/-- A row of `pilotos.csv` as produced by `read_pilotos`; `validade` is the
license expiry date as a day number. -/
structure Piloto where
  matricula : String
  nome : String
  licenca : String
  habilitacao : String
  validade : Int
deriving DecidableEq

/-- A queue-file record (`load_queue`): `voo;hora;prioridade;pista;tipo`.
`hora` is the plan's `etd` copied at enqueue time. -/
structure QRec where
  voo : String
  hora : Nat
  prioridade : Int
  pista : String
  tipo : String
deriving DecidableEq

/-- A `metar.txt` entry as produced by `read_metar`: its time and the
optional `VIS <n>KM` value. -/
structure MetarEntry where
  time : Nat
  vis_km : Option Nat
deriving DecidableEq

/-- A `notam.txt` entry as produced by `read_notams`: either a runway
closure `PISTA <id> FECHADA <start>-<end> <text>` or a generic notice
(with an optional time window). -/
inductive Notam where
  | pistaFechada (pista : String) (startT endT : Nat) (text : String)
  | gen (window : Option (Nat × Nat)) (text : String)
deriving DecidableEq

/-- A line of `torre.log` as seen by the low-visibility scan in
`cmd_autorizar`: whether it contains `AUTORIZADO`, and its leading
timestamp when it parses (in minutes, `Int`). -/
structure LogLine where
  autorizado : Bool
  ts : Option Int
deriving DecidableEq

/-- Test whether `needle` occurs as a contiguous sublist of `hay`. -/
def listSubstr [BEq α] : List α → List α → Bool
  | needle, [] => needle.isEmpty
  | needle, b :: t => needle.isPrefixOf (b :: t) || listSubstr needle t

/-- Python `needle.upper() in hay.upper()`: case-folded substring test. -/
def upperContains (hay needle : String) : Bool :=
  listSubstr (needle.toList.map Char.toUpper) (hay.toList.map Char.toUpper)

/-- Embeds `find_plan_by_voo`: first plan whose `voo` matches. -/
def find_plan_by_voo (planos : List Plano) (voo : String) : Option Plano :=
  planos.find? (fun p => p.voo == voo)

/-- Embeds `notam_blocks_pista`: some `PISTA`-type NOTAM for this runway whose
window `[start, end]` contains the current time (bounds inclusive). -/
def notam_blocks_pista (notams : List Notam) (pista : String) (t : Nat) : Bool :=
  notams.any fun n =>
    match n with
    | .pistaFechada p s e _ => p == pista && decide (s ≤ t) && decide (t ≤ e)
    | .gen _ _ => false

/-- Python `max(candidates, key=time)`: keeps the first entry, replacing it
only on a strictly later time (so the first maximum wins on ties). -/
def maxByTime (e : MetarEntry) (l : List MetarEntry) : MetarEntry :=
  l.foldl (fun best x => if best.time < x.time then x else best) e

/-- Embeds `active_metar_for_now`: latest entry with `time ≤ t`; when no entry
qualifies the source returns `entries[0]` (the first entry in file order). -/
def active_metar_for_now (entries : List MetarEntry) (t : Nat) : Option MetarEntry :=
  match entries with
  | [] => none
  | e0 :: _ =>
    match entries.filter (fun e => decide (e.time ≤ t)) with
    | [] => some e0
    | c :: cs => some (maxByTime c cs)

/-- Embeds `can_operate_due_to_vis`: max concurrent operations allowed — 1 when the
sample has a visibility below 6 km, otherwise 999 (also when there is no
sample or no visibility value). -/
def can_operate_due_to_vis (met : Option MetarEntry) : Nat :=
  match met with
  | none => 999
  | some m =>
    match m.vis_km with
    | none => 999
    | some v => if v < 6 then 1 else 999

/-- Embeds `piloto_valido_for_aeronave`: pilot exists, license not expired as of
`today`, and the certification matches the aircraft string. -/
def piloto_valido_for_aeronave (pilotos : List Piloto) (matricula aeronave : String)
    (today : Int) : Bool × String :=
  match pilotos.find? (fun p => p.matricula == matricula) with
  | none => (false, "Piloto não encontrado")
  | some p =>
    if p.validade < today then (false, "Licença do piloto vencida")
    else if !(upperContains aeronave p.habilitacao) then
      (false, "Habilitação incompatível com aeronave")
    else (true, "")

/-- Python sort key `(-prioridade, hora)` compared ascending: `a` may sit
before `b` iff `a` has higher priority, or equal priority and `hora` no
later. -/
def QLe (a b : QRec) : Prop :=
  b.prioridade < a.prioridade ∨ (a.prioridade = b.prioridade ∧ a.hora ≤ b.hora)

instance : DecidableRel QLe := fun a b => by
  unfold QLe; infer_instance

instance : IsTotal QRec QLe where
  total a b := by
    unfold QLe
    rcases lt_trichotomy a.prioridade b.prioridade with h | h | h
    · exact Or.inr (Or.inl h)
    · rcases Nat.le_total a.hora b.hora with h2 | h2
      · exact Or.inl (Or.inr ⟨h, h2⟩)
      · exact Or.inr (Or.inr ⟨h.symm, h2⟩)
    · exact Or.inl (Or.inl h)

instance : IsTrans QRec QLe where
  trans a b c hab hbc := by
    unfold QLe at *
    rcases hab with h1 | ⟨h1, h1'⟩ <;> rcases hbc with h2 | ⟨h2, h2'⟩
    · exact Or.inl (h2.trans h1)
    · exact Or.inl (h2 ▸ h1)
    · exact Or.inl (h1 ▸ h2)
    · exact Or.inr ⟨h1.trans h2, h1'.trans h2'⟩

/-- Embeds the source's stable ascending sort of a queue file by the
queue key (insertion sort computes the same stable result). -/
def sortQueue (l : List QRec) : List QRec :=
  List.insertionSort QLe l

/-- Outcome of `cmd_enfileirar` (each constructor is one of the source's
early-return messages; `ok` carries the assigned pilot). -/
inductive EnfResult where
  | planoNaoEncontrado
  | jaEnfileirado
  | semPilotoHabilitado
  | pilotoInvalido (motivo : String)
  | ok (piloto : String)
deriving DecidableEq

/-- Embeds `cmd_enfileirar` for `modo`/`voo`, acting on the pair of queues
(decolagem, pouso). The frota lookup in the source only logs a warning and
never changes behaviour, so it contributes no branch here. -/
def cmd_enfileirar (planos : List Plano) (pilotos : List Piloto) (today : Int)
    (modo voo : String) (qd qp : List QRec) : EnfResult × List QRec × List QRec :=
  match find_plan_by_voo planos voo with
  | none => (.planoNaoEncontrado, qd, qp)
  | some plan =>
    if (qd ++ qp).any (fun q => q.voo == voo) then (.jaEnfileirado, qd, qp)
    else
      match pilotos.find? (fun p => upperContains plan.aeronave p.habilitacao) with
      | none => (.semPilotoHabilitado, qd, qp)
      | some pil =>
        if !(piloto_valido_for_aeronave pilotos pil.matricula plan.aeronave today).1 then
          (.pilotoInvalido (piloto_valido_for_aeronave pilotos pil.matricula plan.aeronave today).2,
            qd, qp)
        else if modo == "decolagem" then
          (.ok pil.matricula,
            sortQueue (qd ++ [⟨voo, plan.etd, plan.prioridade, plan.pista_pref, modo⟩]), qp)
        else
          (.ok pil.matricula, qd,
            sortQueue (qp ++ [⟨voo, plan.etd, plan.prioridade, plan.pista_pref, modo⟩]))

/-- Outcome of `cmd_autorizar` (one constructor per source early return). -/
inductive AutResult where
  | pistaDesconhecida
  | pistaFechada (status : String)
  | notamBloqueio
  | visNegada
  | filaVazia
  | nenhumElegivel
  | autorizado (voo : String)
deriving DecidableEq

/-- The log scan of `cmd_autorizar`: some `AUTORIZADO` line whose parsed
timestamp is within the trailing 10 minutes (lines that fail to parse are
skipped). -/
def recent_auth (log : List LogLine) (nowAbs : Int) : Bool :=
  log.any fun ln =>
    ln.autorizado &&
      match ln.ts with
      | some ts => decide (nowAbs - 10 ≤ ts)
      | none => false

/-- The eligibility scan of `cmd_autorizar`: walk the queue in order,
skipping records whose plan does not resolve; at the first resolvable
record, both the `EMERGENCIA` branch and the default branch select it
(mirroring the source, where both branches break at the same index). -/
def findEligibleAux (planos : List Plano) : Nat → List QRec → Option (Nat × QRec)
  | _, [] => none
  | i, r :: rs =>
    match find_plan_by_voo planos r.voo with
    | none => findEligibleAux planos (i + 1) rs
    | some plan =>
      if plan.tipo == "EMERGENCIA" then some (i, r) else some (i, r)

def findEligible (planos : List Plano) (q : List QRec) : Option (Nat × QRec) :=
  findEligibleAux planos 0 q

/-- Embeds `cmd_autorizar` for `modo`/`pista`. `tod` is `now_time()` (time of day),
`nowAbs` is `datetime.now()` (absolute minutes) used by the log scan. -/
def cmd_autorizar (pistas : List (String × String)) (notams : List Notam)
    (metars : List MetarEntry) (planos : List Plano) (log : List LogLine)
    (tod : Nat) (nowAbs : Int) (modo pista : String) (qd qp : List QRec) :
    AutResult × List QRec × List QRec :=
  match pistas.lookup pista with
  | none => (.pistaDesconhecida, qd, qp)
  | some status =>
    if status != "ABERTA" then (.pistaFechada status, qd, qp)
    else if notam_blocks_pista notams pista tod then (.notamBloqueio, qd, qp)
    else if can_operate_due_to_vis (active_metar_for_now metars tod) == 1
        && recent_auth log nowAbs then
      (.visNegada, qd, qp)
    else
      match (if modo == "decolagem" then qd else qp) with
      | [] => (.filaVazia, qd, qp)
      | _ :: _ =>
        match findEligible planos (if modo == "decolagem" then qd else qp) with
        | none => (.nenhumElegivel, qd, qp)
        | some (i, r) =>
          if modo == "decolagem" then
            (.autorizado r.voo, qd.eraseIdx i, qp)
          else
            (.autorizado r.voo, qd, qp.eraseIdx i)

/-- The return code of `cmd_autorizar` in the source: the empty-queue and
no-eligible-flight paths return 0 (success) like an authorization; every
denial path returns 1. -/
def exit_code : AutResult → Nat
  | .autorizado _ => 0
  | .filaVazia => 0
  | .nenhumElegivel => 0
  | _ => 1

/-- Audit events appended to the log by one `cmd_autorizar` call: an
`AUTORIZADO` line on success, a denial line on the three rule denials, and
nothing on the informational empty-queue / no-eligible / unknown-runway
messages. -/
inductive Event where
  | autorizado (voo : String)
  | negado
deriving DecidableEq

def events_of : AutResult → List Event
  | .autorizado v => [.autorizado v]
  | .pistaFechada _ => [.negado]
  | .notamBloqueio => [.negado]
  | .visNegada => [.negado]
  | _ => []

/-- The static data `cmd_enfileirar` re-reads on every call. -/
structure Env where
  planos : List Plano
  pilotos : List Piloto
  today : Int

/-- One enqueue command `(modo, voo)` acting on the queue state. -/
def enqStep (env : Env) (st : List QRec × List QRec) (c : String × String) :
    List QRec × List QRec :=
  (cmd_enfileirar env.planos env.pilotos env.today c.1 c.2 st.1 st.2).2

/-- A whole session of enqueue commands starting from the empty queues that
`importar-dados` initializes. -/
def runEnq (env : Env) (cs : List (String × String)) : List QRec × List QRec :=
  cs.foldl (enqStep env) ([], [])

/-! ### Concrete fixtures (used by witnesses and counterexamples) -/

def pAZ100 : Plano := ⟨"AZ100", "GRU", "SDU", 600, 660, "B727", "COMERCIAL", 2, "10/28"⟩

def pAZ999 : Plano := ⟨"AZ999", "POA", "SDU", 610, 670, "B727", "EMERGENCIA", 0, "10/28"⟩

def pAA1 : Plano := ⟨"AA1", "GRU", "SDU", 600, 660, "B727", "COMERCIAL", 1, "10/28"⟩

def pBB2 : Plano := ⟨"BB2", "GRU", "SDU", 540, 620, "B727", "COMERCIAL", 1, "10/28"⟩

def pilotoAna : Piloto := ⟨"M1", "Ana", "ATPL", "B727", 100⟩

def envAZ : Env := ⟨[pAZ100, pAZ999], [pilotoAna], 0⟩

def envAB : Env := ⟨[pAA1, pBB2], [pilotoAna], 0⟩

def recAZ100 : QRec := ⟨"AZ100", 600, 2, "10/28", "decolagem"⟩

def recAZ999 : QRec := ⟨"AZ999", 610, 0, "10/28", "decolagem"⟩

/-- No flight id occurs in both queues at once. -/
def QDisj (qd qp : List QRec) : Prop :=
  ∀ a ∈ qd, ∀ b ∈ qp, a.voo ≠ b.voo

/-! ### Helper lemmas -/

theorem sortQueue_sorted (l : List QRec) : List.Sorted QLe (sortQueue l) :=
  List.sorted_insertionSort QLe l

theorem sortQueue_perm (l : List QRec) : List.Perm (sortQueue l) l :=
  List.perm_insertionSort QLe l

theorem mem_sortQueue {x : QRec} {l : List QRec} : x ∈ sortQueue l ↔ x ∈ l :=
  (sortQueue_perm l).mem_iff

/-- Case analysis on the state change performed by one `cmd_enfileirar` call:
either the queues are untouched, or exactly one queue is re-sorted with the
new record appended, and then the flight was not present in either queue. -/
theorem enq_state_cases (planos : List Plano) (pilotos : List Piloto) (today : Int)
    (modo voo : String) (qd qp : List QRec) :
    (cmd_enfileirar planos pilotos today modo voo qd qp).2 = (qd, qp) ∨
    ∃ plan, find_plan_by_voo planos voo = some plan ∧
      (∀ q ∈ qd ++ qp, q.voo ≠ voo) ∧
      (((modo == "decolagem") = true ∧
          (cmd_enfileirar planos pilotos today modo voo qd qp).2
            = (sortQueue (qd ++ [⟨voo, plan.etd, plan.prioridade, plan.pista_pref, modo⟩]), qp)) ∨
       ((modo == "decolagem") = false ∧
          (cmd_enfileirar planos pilotos today modo voo qd qp).2
            = (qd, sortQueue (qp ++ [⟨voo, plan.etd, plan.prioridade, plan.pista_pref, modo⟩])))) := by
  unfold cmd_enfileirar
  split
  · exact Or.inl rfl
  next plan hp =>
    split
    next hdup => exact Or.inl rfl
    next hdup =>
      have hnot : ∀ q ∈ qd ++ qp, q.voo ≠ voo := by
        intro q hq
        have := List.any_eq_false.mp (Bool.eq_false_iff.mpr hdup) q hq
        simpa using this
      split
      · exact Or.inl rfl
      next pil hpil =>
        split
        next hval => exact Or.inl rfl
        next hval =>
          split
          next hmodo => exact Or.inr ⟨plan, hp, hnot, Or.inl ⟨hmodo, rfl⟩⟩
          next hmodo =>
            exact Or.inr ⟨plan, hp, hnot, Or.inr ⟨Bool.eq_false_iff.mpr hmodo, rfl⟩⟩

theorem QLe.prio_le {a b : QRec} (h : QLe a b) : b.prioridade ≤ a.prioridade := by
  rcases h with h | ⟨h, _⟩
  · exact le_of_lt h
  · exact le_of_eq h.symm

/-- One enqueue step preserves sortedness of both queues and disjointness. -/
theorem enqStep_preserves (env : Env) (st : List QRec × List QRec) (c : String × String)
    (hd : List.Sorted QLe st.1) (hp : List.Sorted QLe st.2) (hdisj : QDisj st.1 st.2) :
    List.Sorted QLe (enqStep env st c).1 ∧ List.Sorted QLe (enqStep env st c).2 ∧
      QDisj (enqStep env st c).1 (enqStep env st c).2 := by
  unfold enqStep
  rcases enq_state_cases env.planos env.pilotos env.today c.1 c.2 st.1 st.2 with
    h0 | ⟨plan, _, hnot, ⟨_, h2⟩ | ⟨_, h2⟩⟩
  · rw [h0]; exact ⟨hd, hp, hdisj⟩
  · rw [h2]
    refine ⟨sortQueue_sorted _, hp, ?_⟩
    intro a ha b hb
    rcases List.mem_append.mp (mem_sortQueue.mp ha) with ha' | ha'
    · exact hdisj a ha' b hb
    · have hav : a.voo = c.2 := by
        rcases List.mem_singleton.mp ha' with rfl; rfl
      intro he
      exact hnot b (List.mem_append.mpr (Or.inr hb)) (by rw [← he, hav])
  · rw [h2]
    refine ⟨hd, sortQueue_sorted _, ?_⟩
    intro a ha b hb
    rcases List.mem_append.mp (mem_sortQueue.mp hb) with hb' | hb'
    · exact hdisj a ha b hb'
    · have hbv : b.voo = c.2 := by
        rcases List.mem_singleton.mp hb' with rfl; rfl
      intro he
      exact hnot a (List.mem_append.mpr (Or.inl ha)) (by rw [he, hbv])

theorem foldl_enq_inv (env : Env) (P : List QRec × List QRec → Prop)
    (hstep : ∀ st c, P st → P (enqStep env st c)) :
    ∀ (cs : List (String × String)) (st : List QRec × List QRec),
      P st → P (cs.foldl (enqStep env) st)
  | [], _, h => h
  | c :: cs, st, h => foldl_enq_inv env P hstep cs (enqStep env st c) (hstep st c h)

/-- Every state reachable by a session of enqueues from the empty queues has
both queues sorted by the queue key and no flight id in both queues. -/
theorem runEnq_invariants (env : Env) (cs : List (String × String)) :
    List.Sorted QLe (runEnq env cs).1 ∧ List.Sorted QLe (runEnq env cs).2 ∧
      QDisj (runEnq env cs).1 (runEnq env cs).2 :=
  foldl_enq_inv env
    (fun st => List.Sorted QLe st.1 ∧ List.Sorted QLe st.2 ∧ QDisj st.1 st.2)
    (fun st c h => enqStep_preserves env st c h.1 h.2.1 h.2.2)
    cs ([], [])
    ⟨List.sorted_nil, List.sorted_nil, fun a ha => absurd ha (List.not_mem_nil a)⟩

/-- C5: a runway present with status `FECHADA` (closed) denies with the closed
reason, and an absent runway denies with the unknown reason; both leave both
queues unchanged. -/
theorem pista_fechada_ou_desconhecida_nega :
    (∀ pistas notams metars planos log tod nowAbs modo pista qd qp,
       pistas.lookup pista = some "FECHADA" →
       cmd_autorizar pistas notams metars planos log tod nowAbs modo pista qd qp
         = (.pistaFechada "FECHADA", qd, qp)) ∧
    (∀ pistas notams metars planos log tod nowAbs modo pista qd qp,
       pistas.lookup pista = none →
       cmd_autorizar pistas notams metars planos log tod nowAbs modo pista qd qp
         = (.pistaDesconhecida, qd, qp)) := by
  constructor
  · intro pistas notams metars planos log tod nowAbs modo pista qd qp h
    simp [cmd_autorizar, h]
  · intro pistas notams metars planos log tod nowAbs modo pista qd qp h
    simp [cmd_autorizar, h]

theorem pista_fechada_ou_desconhecida_nega_witness :
    cmd_autorizar [("01/19", "FECHADA")] [] [] [] [] 900 10000 "decolagem" "01/19"
        [recAZ100] [] = (.pistaFechada "FECHADA", [recAZ100], []) ∧
    cmd_autorizar [("01/19", "FECHADA")] [] [] [] [] 900 10000 "decolagem" "10/28"
        [recAZ100] [] = (.pistaDesconhecida, [recAZ100], []) :=
  ⟨pista_fechada_ou_desconhecida_nega.1 _ _ _ _ _ _ _ _ _ _ _ (by decide),
   pista_fechada_ou_desconhecida_nega.2 _ _ _ _ _ _ _ _ _ _ _ (by decide)⟩

/-- C3: over every sequence of enqueue operations starting from the empty
queues, no flight id is ever in the departure and arrival queues at once;
and an enqueue whose flight id is already present in either queue fails with
the already-queued result, leaving both queues unchanged. -/
theorem filas_disjuntas :
    (∀ (env : Env) (cs : List (String × String)),
      QDisj (runEnq env cs).1 (runEnq env cs).2) ∧
    (∀ (planos : List Plano) (pilotos : List Piloto) (today : Int)
       (modo voo : String) (qd qp : List QRec) (plan : Plano),
      find_plan_by_voo planos voo = some plan →
      (∃ q ∈ qd ++ qp, q.voo = voo) →
      cmd_enfileirar planos pilotos today modo voo qd qp = (.jaEnfileirado, qd, qp)) := by
  constructor
  · exact fun env cs => (runEnq_invariants env cs).2.2
  · intro planos pilotos today modo voo qd qp plan hplan hmem
    have hany : (qd ++ qp).any (fun q => q.voo == voo) = true := by
      rcases hmem with ⟨q, hq, hv⟩
      exact List.any_eq_true.mpr ⟨q, hq, by simp [hv]⟩
    unfold cmd_enfileirar
    rw [hplan]
    simp [hany]

theorem filas_disjuntas_witness :
    QDisj (runEnq envAZ [("decolagem", "AZ100"), ("pouso", "AZ999")]).1
        (runEnq envAZ [("decolagem", "AZ100"), ("pouso", "AZ999")]).2 ∧
    cmd_enfileirar [pAZ100, pAZ999] [pilotoAna] 0 "pouso" "AZ100" [recAZ100] []
        = (.jaEnfileirado, [recAZ100], []) :=
  ⟨filas_disjuntas.1 envAZ [("decolagem", "AZ100"), ("pouso", "AZ999")],
   filas_disjuntas.2 [pAZ100, pAZ999] [pilotoAna] 0 "pouso" "AZ100" [recAZ100] [] pAZ100
     (by decide) ⟨recAZ100, by decide, rfl⟩⟩

/-- C2 (amended): after every enqueue, each queue is sorted by priority
descending and then by the record's `hora` field ascending — `hora` is the
flight plan's scheduled departure time copied at enqueue, not the enqueue
instant —; in particular an entry never sits behind a strictly
lower-priority entry. -/
theorem filas_ordenadas_por_prioridade_e_hora (env : Env) (cs : List (String × String)) :
    List.Sorted QLe (runEnq env cs).1 ∧ List.Sorted QLe (runEnq env cs).2 ∧
    (∀ i j : Fin (runEnq env cs).1.length, i < j →
      ((runEnq env cs).1.get j).prioridade ≤ ((runEnq env cs).1.get i).prioridade) ∧
    (∀ i j : Fin (runEnq env cs).2.length, i < j →
      ((runEnq env cs).2.get j).prioridade ≤ ((runEnq env cs).2.get i).prioridade) := by
  obtain ⟨h1, h2, -⟩ := runEnq_invariants env cs
  exact ⟨h1, h2,
    fun i j hij => (h1.rel_get_of_lt hij).prio_le,
    fun i j hij => (h2.rel_get_of_lt hij).prio_le⟩

theorem filas_ordenadas_witness :
    List.Sorted QLe (runEnq envAZ [("decolagem", "AZ100"), ("decolagem", "AZ999")]).1 ∧
    ((runEnq envAZ [("decolagem", "AZ100"), ("decolagem", "AZ999")]).1.get
        ⟨1, by decide⟩).prioridade ≤
      ((runEnq envAZ [("decolagem", "AZ100"), ("decolagem", "AZ999")]).1.get
        ⟨0, by decide⟩).prioridade :=
  ⟨(filas_ordenadas_por_prioridade_e_hora envAZ _).1,
   (filas_ordenadas_por_prioridade_e_hora envAZ
      [("decolagem", "AZ100"), ("decolagem", "AZ999")]).2.2.1
     ⟨0, by decide⟩ ⟨1, by decide⟩ (by decide)⟩

/-- C2 counterexample: flights `AA1` (priority 1, scheduled 10:00) and `BB2`
(priority 1, scheduled 09:00). `AA1` is enqueued first, `BB2` afterwards,
yet the resulting departure queue places the later-enqueued `BB2` ahead of
`AA1`: the tie-break within equal priority is the `hora` (scheduled-time)
field, not the enqueue time, so the queue is not ordered by
(priority descending, queued-time ascending). -/
theorem ordem_fila_nao_e_tempo_de_enfileiramento :
    (runEnq envAB [("decolagem", "AA1")]).1
        = [⟨"AA1", 600, 1, "10/28", "decolagem"⟩] ∧
    (runEnq envAB [("decolagem", "AA1"), ("decolagem", "BB2")]).1
        = [⟨"BB2", 540, 1, "10/28", "decolagem"⟩, ⟨"AA1", 600, 1, "10/28", "decolagem"⟩] := by
  decide

/-- C1 (code bug): flight `AZ100` (tipo `COMERCIAL`, priority 2) enqueued for
departure, then `AZ999` (tipo `EMERGENCIA`, priority 0) enqueued for
departure. With rules 1–3 passing (runway open, no NOTAM, no weather limit)
the next authorization selects `AZ100`, not `AZ999`: the queue is ordered by
priority only, and the eligibility scan of `cmd_autorizar` selects the first
resolvable entry — its `EMERGENCIA` branch and its default branch both stop
at the same index, so the emergency precedence stated in the source's own
comment ("Emergency flights have top precedence") never acts. -/
theorem emergencia_nao_tem_precedencia :
    (runEnq envAZ [("decolagem", "AZ100"), ("decolagem", "AZ999")]).1
        = [recAZ100, recAZ999] ∧
    find_plan_by_voo [pAZ100, pAZ999] "AZ999" = some pAZ999 ∧
    pAZ999.tipo = "EMERGENCIA" ∧ pAZ999.prioridade = 0 ∧
    pAZ100.tipo = "COMERCIAL" ∧ pAZ100.prioridade = 2 ∧
    (cmd_autorizar [("10/28", "ABERTA")] [] [] [pAZ100, pAZ999] [] 900 10000
        "decolagem" "10/28" [recAZ100, recAZ999] []).1 = .autorizado "AZ100" ∧
    (cmd_autorizar [("10/28", "ABERTA")] [] [] [pAZ100, pAZ999] [] 900 10000
        "decolagem" "10/28" [recAZ100, recAZ999] []).1 ≠ .autorizado "AZ999" := by
  decide

/-- Any result of `cmd_autorizar` other than the low-visibility denial can
only arise when the low-visibility gate did not fire; conversely the
`visNegada` result implies the gate condition held. -/
theorem visNegada_implies (pistas : List (String × String)) (notams : List Notam)
    (metars : List MetarEntry) (planos : List Plano) (log : List LogLine)
    (tod : Nat) (nowAbs : Int) (modo pista : String) (qd qp : List QRec) :
    (cmd_autorizar pistas notams metars planos log tod nowAbs modo pista qd qp).1
        = .visNegada →
    (can_operate_due_to_vis (active_metar_for_now metars tod) == 1
        && recent_auth log nowAbs) = true := by
  unfold cmd_autorizar
  repeat' split
  all_goals intro h
  all_goals first
    | assumption
    | simp at h

/-- C4: with the runway check and the NOTAM check passing, if the in-effect
weather sample has visibility strictly below 6 km and an `AUTORIZADO` log
line exists whose timestamp is within the trailing 10 minutes, the call
denies with the low-visibility reason and removes nothing; with visibility
6 km or more, the low-visibility denial can never occur. -/
theorem visibilidade_baixa_limita_concorrencia :
    (∀ (pistas : List (String × String)) (notams : List Notam) (metars : List MetarEntry)
       (planos : List Plano) (log : List LogLine) (tod : Nat) (nowAbs : Int)
       (modo pista : String) (qd qp : List QRec) (m : MetarEntry) (v : Nat),
      pistas.lookup pista = some "ABERTA" →
      notam_blocks_pista notams pista tod = false →
      active_metar_for_now metars tod = some m →
      m.vis_km = some v → v < 6 →
      recent_auth log nowAbs = true →
      cmd_autorizar pistas notams metars planos log tod nowAbs modo pista qd qp
        = (.visNegada, qd, qp)) ∧
    (∀ (pistas : List (String × String)) (notams : List Notam) (metars : List MetarEntry)
       (planos : List Plano) (log : List LogLine) (tod : Nat) (nowAbs : Int)
       (modo pista : String) (qd qp : List QRec) (m : MetarEntry) (v : Nat),
      active_metar_for_now metars tod = some m →
      m.vis_km = some v → 6 ≤ v →
      (cmd_autorizar pistas notams metars planos log tod nowAbs modo pista qd qp).1
        ≠ .visNegada) := by
  constructor
  · intro pistas notams metars planos log tod nowAbs modo pista qd qp m v
      hlook hnb hmet hvis hv hrec
    have hconc : can_operate_due_to_vis (active_metar_for_now metars tod) = 1 := by
      rw [hmet]
      simp [can_operate_due_to_vis, hvis, hv]
    simp [cmd_autorizar, hlook, hnb, hconc, hrec]
  · intro pistas notams metars planos log tod nowAbs modo pista qd qp m v
      hmet hvis hv heq
    have hconc : can_operate_due_to_vis (active_metar_for_now metars tod) = 999 := by
      rw [hmet]
      simp [can_operate_due_to_vis, hvis, Nat.not_lt.mpr hv]
    have := visNegada_implies pistas notams metars planos log tod nowAbs modo pista qd qp heq
    rw [hconc] at this
    simp at this

theorem visibilidade_baixa_witness :
    cmd_autorizar [("10/28", "ABERTA")] [] [⟨480, some 3⟩] [] [⟨true, some 9995⟩]
        900 10000 "decolagem" "10/28" [recAZ100] []
      = (.visNegada, [recAZ100], []) ∧
    (cmd_autorizar [("10/28", "ABERTA")] [] [⟨480, some 8⟩] [] [⟨true, some 9995⟩]
        900 10000 "decolagem" "10/28" [recAZ100] []).1 ≠ .visNegada :=
  ⟨visibilidade_baixa_limita_concorrencia.1 _ _ _ _ _ _ _ _ _ _ _ ⟨480, some 3⟩ 3
      (by decide) (by decide) (by decide) (by decide) (by decide) (by decide),
   visibilidade_baixa_limita_concorrencia.2 _ _ _ _ _ _ _ _ _ _ _ ⟨480, some 8⟩ 8
      (by decide) (by decide) (by decide)⟩

/-- C6: a `PISTA`-type NOTAM blocks its runway exactly when the current time
lies in `[start, end]` inclusive; concretely, with runway `10/28` open and
the advisory `PISTA 10/28 FECHADA 14:00-16:00`, authorizing at 15:00 is
denied with the NOTAM-block reason while authorizing at 17:00 succeeds
(queue and weather permitting). -/
theorem notam_bloqueia_no_intervalo_inclusivo :
    (∀ (notams : List Notam) (pista : String) (t : Nat),
      notam_blocks_pista notams pista t = true ↔
        ∃ s e txt, Notam.pistaFechada pista s e txt ∈ notams ∧ s ≤ t ∧ t ≤ e) ∧
    (cmd_autorizar [("10/28", "ABERTA")] [.pistaFechada "10/28" 840 960 "MANUTENCAO"]
        [] [pAZ100, pAZ999] [] 900 10000 "decolagem" "10/28" [recAZ100] []).1
      = .notamBloqueio ∧
    (cmd_autorizar [("10/28", "ABERTA")] [.pistaFechada "10/28" 840 960 "MANUTENCAO"]
        [] [pAZ100, pAZ999] [] 1020 10000 "decolagem" "10/28" [recAZ100] []).1
      = .autorizado "AZ100" := by
  refine ⟨?_, by decide, by decide⟩
  intro notams pista t
  unfold notam_blocks_pista
  rw [List.any_eq_true]
  constructor
  · rintro ⟨n, hn, hpred⟩
    cases n with
    | pistaFechada p s e txt =>
      simp only [Bool.and_eq_true, beq_iff_eq, decide_eq_true_eq] at hpred
      obtain ⟨⟨rfl, hs⟩, ht⟩ := hpred
      exact ⟨s, e, txt, hn, hs, ht⟩
    | gen w txt => simp at hpred
  · rintro ⟨s, e, txt, hn, hs, ht⟩
    exact ⟨_, hn, by simp [hs, ht]⟩

theorem notam_bloqueia_witness :
    notam_blocks_pista [.pistaFechada "10/28" 840 960 "MANUTENCAO"] "10/28" 900 = true :=
  (notam_bloqueia_no_intervalo_inclusivo.1 _ _ _).mpr
    ⟨840, 960, "MANUTENCAO", by decide, by decide, by decide⟩

/-- C7: with rules 1–3 passing, authorizing against an empty queue returns
the queue-empty result, which carries exit code 0 (a success, not an error),
appends no audit event, and leaves both queues untouched. -/
theorem fila_vazia_sucesso_sem_auditoria
    (pistas : List (String × String)) (notams : List Notam) (metars : List MetarEntry)
    (planos : List Plano) (log : List LogLine) (tod : Nat) (nowAbs : Int)
    (modo pista : String) (qd qp : List QRec)
    (hlook : pistas.lookup pista = some "ABERTA")
    (hnb : notam_blocks_pista notams pista tod = false)
    (hvis : (can_operate_due_to_vis (active_metar_for_now metars tod) == 1
        && recent_auth log nowAbs) = false)
    (hq : (if modo == "decolagem" then qd else qp) = []) :
    cmd_autorizar pistas notams metars planos log tod nowAbs modo pista qd qp
        = (.filaVazia, qd, qp) ∧
    exit_code (cmd_autorizar pistas notams metars planos log tod nowAbs modo pista qd qp).1
        = 0 ∧
    events_of (cmd_autorizar pistas notams metars planos log tod nowAbs modo pista qd qp).1
        = [] := by
  have hq' : (if modo = "decolagem" then qd else qp) = [] := by simpa using hq
  have hmain : cmd_autorizar pistas notams metars planos log tod nowAbs modo pista qd qp
      = (.filaVazia, qd, qp) := by
    simp [cmd_autorizar, hlook, hnb, hvis, hq']
  exact ⟨hmain, by rw [hmain]; rfl, by rw [hmain]; rfl⟩

theorem fila_vazia_witness :
    cmd_autorizar [("10/28", "ABERTA")] [] [] [] [] 900 10000 "decolagem" "10/28" [] [recAZ100]
        = (.filaVazia, [], [recAZ100]) ∧
    exit_code (cmd_autorizar [("10/28", "ABERTA")] [] [] [] [] 900 10000 "decolagem" "10/28"
        [] [recAZ100]).1 = 0 ∧
    events_of (cmd_autorizar [("10/28", "ABERTA")] [] [] [] [] 900 10000 "decolagem" "10/28"
        [] [recAZ100]).1 = [] :=
  fila_vazia_sucesso_sem_auditoria [("10/28", "ABERTA")] [] [] [] [] 900 10000
    "decolagem" "10/28" [] [recAZ100] (by decide) (by decide) (by decide) (by decide)

theorem maxByTime_mem : ∀ (l : List MetarEntry) (c : MetarEntry), maxByTime c l ∈ c :: l := by
  intro l
  induction l with
  | nil => intro c; exact List.mem_singleton.mpr rfl
  | cons x xs ih =>
    intro c
    have h := ih (if c.time < x.time then x else c)
    have hgoal : maxByTime c (x :: xs) = maxByTime (if c.time < x.time then x else c) xs := rfl
    rw [hgoal]
    rcases List.mem_cons.mp h with h1 | h1
    · rw [h1]
      split
      · exact List.mem_cons.mpr (Or.inr (List.mem_cons.mpr (Or.inl rfl)))
      · exact List.mem_cons.mpr (Or.inl rfl)
    · exact List.mem_cons.mpr (Or.inr (List.mem_cons.mpr (Or.inr h1)))

theorem maxByTime_le :
    ∀ (l : List MetarEntry) (c : MetarEntry) (y : MetarEntry),
      y ∈ c :: l → y.time ≤ (maxByTime c l).time := by
  intro l
  induction l with
  | nil =>
    intro c y hy
    rcases List.mem_singleton.mp hy with rfl
    exact Nat.le_refl _
  | cons x xs ih =>
    intro c y hy
    have hgoal : maxByTime c (x :: xs) = maxByTime (if c.time < x.time then x else c) xs := rfl
    rw [hgoal]
    have hstep : ∀ z : MetarEntry, z = c ∨ z = x →
        z.time ≤ (if c.time < x.time then x else c).time := by
      intro z hz
      rcases hz with rfl | rfl
      · split
        next hlt => exact Nat.le_of_lt hlt
        next => exact Nat.le_refl _
      · split
        next => exact Nat.le_refl _
        next hlt => exact Nat.le_of_not_lt hlt
    rcases List.mem_cons.mp hy with rfl | hy'
    · exact (hstep y (Or.inl rfl)).trans
        (ih _ _ (List.mem_cons.mpr (Or.inl rfl)))
    · rcases List.mem_cons.mp hy' with rfl | hy''
      · exact (hstep y (Or.inr rfl)).trans
          (ih _ _ (List.mem_cons.mpr (Or.inl rfl)))
      · exact ih _ _ (List.mem_cons.mpr (Or.inr hy''))

/-- C8 (amended): when some sample has timestamp ≤ the instant, the sample in
effect is one of the samples, has timestamp ≤ the instant, and its timestamp
is the latest among such samples; when no sample's timestamp precedes or
equals the instant, the sample in effect is the FIRST-LISTED sample (which is
the earliest only when the file is listed chronologically). -/
theorem metar_vigente_mais_recente_ou_primeiro :
    (∀ (entries : List MetarEntry) (t : Nat) (m : MetarEntry),
      active_metar_for_now entries t = some m →
      (∃ e ∈ entries, e.time ≤ t) →
      m ∈ entries ∧ m.time ≤ t ∧ ∀ e ∈ entries, e.time ≤ t → e.time ≤ m.time) ∧
    (∀ (e0 : MetarEntry) (rest : List MetarEntry) (t : Nat),
      (∀ e ∈ e0 :: rest, ¬ e.time ≤ t) →
      active_metar_for_now (e0 :: rest) t = some e0) := by
  constructor
  · intro entries t m hact hex
    cases entries with
    | nil => simp [active_metar_for_now] at hact
    | cons e0 tail =>
      obtain ⟨c, cs, hk⟩ :
          ∃ c cs, (e0 :: tail).filter (fun e => decide (e.time ≤ t)) = c :: cs := by
        rcases hex with ⟨e, he, het⟩
        have hmem : e ∈ (e0 :: tail).filter (fun e => decide (e.time ≤ t)) :=
          List.mem_filter.mpr ⟨he, by simpa⟩
        cases hfk : (e0 :: tail).filter (fun e => decide (e.time ≤ t)) with
        | nil => rw [hfk] at hmem; cases hmem
        | cons c cs => exact ⟨c, cs, rfl⟩
      have hact' : maxByTime c cs = m := by
        unfold active_metar_for_now at hact
        rw [hk] at hact
        simpa using hact
      subst hact'
      have hmem : maxByTime c cs ∈ (e0 :: tail).filter (fun e => decide (e.time ≤ t)) := by
        rw [hk]; exact maxByTime_mem cs c
      have hmf := List.mem_filter.mp hmem
      refine ⟨hmf.1, by simpa using hmf.2, ?_⟩
      intro e he het
      have he' : e ∈ c :: cs := by
        rw [← hk]; exact List.mem_filter.mpr ⟨he, by simpa⟩
      exact maxByTime_le cs c e he'
  · intro e0 rest t hall
    have hfil : (e0 :: rest).filter (fun e => decide (e.time ≤ t)) = [] := by
      rw [List.filter_eq_nil_iff]
      intro a ha
      simpa using hall a ha
    unfold active_metar_for_now
    rw [hfil]

theorem metar_vigente_witness :
    active_metar_for_now [⟨480, some 7⟩, ⟨540, some 3⟩, ⟨660, some 9⟩] 600
        = some ⟨540, some 3⟩ ∧
    MetarEntry.mk 540 (some 3) ∈ [MetarEntry.mk 480 (some 7), ⟨540, some 3⟩, ⟨660, some 9⟩] ∧
    (540 : Nat) ≤ 600 ∧
    (∀ e ∈ [MetarEntry.mk 480 (some 7), ⟨540, some 3⟩, ⟨660, some 9⟩],
      e.time ≤ 600 → e.time ≤ 540) ∧
    active_metar_for_now [MetarEntry.mk 600 none, ⟨540, none⟩] 100 = some ⟨600, none⟩ := by
  refine ⟨by decide, ?_⟩
  have h := metar_vigente_mais_recente_ou_primeiro.1
    [⟨480, some 7⟩, ⟨540, some 3⟩, ⟨660, some 9⟩] 600 ⟨540, some 3⟩
    (by decide) ⟨⟨480, some 7⟩, by decide, by decide⟩
  refine ⟨h.1, h.2.1, h.2.2, ?_⟩
  exact metar_vigente_mais_recente_ou_primeiro.2 ⟨600, none⟩ [⟨540, none⟩] 100 (by decide)

/-- C8 counterexample: at instant 0 no sample of
`[⟨600, _⟩, ⟨540, _⟩]` has timestamp ≤ 0, and the sample in effect is
`⟨600, _⟩` — the first listed — although the EARLIEST available sample is
`⟨540, _⟩`; this refutes "the earliest available sample is in effect". -/
theorem metar_wrap_nao_e_o_mais_cedo :
    (∀ e ∈ [MetarEntry.mk 600 none, ⟨540, none⟩], ¬ e.time ≤ 0) ∧
    active_metar_for_now [MetarEntry.mk 600 none, ⟨540, none⟩] 0 = some ⟨600, none⟩ ∧
    active_metar_for_now [MetarEntry.mk 600 none, ⟨540, none⟩] 0 ≠ some ⟨540, none⟩ ∧
    MetarEntry.mk 540 none ∈ [MetarEntry.mk 600 none, ⟨540, none⟩] ∧
    (540 : Nat) < 600 := by
  decide

theorem findEligibleAux_shift (planos : List Plano) :
    ∀ (q : List QRec) (i : Nat),
      findEligibleAux planos i q
        = (findEligibleAux planos 0 q).map (fun p => (p.1 + i, p.2)) := by
  intro q
  induction q with
  | nil => intro i; rfl
  | cons r rs ih =>
    intro i
    cases hp : find_plan_by_voo planos r.voo with
    | some plan =>
      simp only [findEligibleAux, hp]
      split <;> simp
    | none =>
      simp only [findEligibleAux, hp]
      rw [ih (i + 1), ih 1, Option.map_map]
      congr 1
      funext p
      simp [Nat.add_assoc, Nat.add_comm 1 i]

theorem findEligible_skip (planos : List Plano) (r : QRec) (q : List QRec)
    (h : find_plan_by_voo planos r.voo = none) :
    findEligible planos (r :: q)
      = (findEligible planos q).map (fun p => (p.1 + 1, p.2)) := by
  unfold findEligible
  conv => lhs; unfold findEligibleAux
  rw [h]
  exact findEligibleAux_shift planos q 1

theorem findEligible_none (planos : List Plano) :
    ∀ q : List QRec, (∀ r ∈ q, find_plan_by_voo planos r.voo = none) →
      findEligible planos q = none := by
  intro q
  induction q with
  | nil => intro _; rfl
  | cons r rs ih =>
    intro hall
    rw [findEligible_skip planos r rs (hall r (List.mem_cons.mpr (Or.inl rfl)))]
    rw [ih (fun x hx => hall x (List.mem_cons.mpr (Or.inr hx)))]
    rfl

/-- C9: the eligibility scan skips a queue entry whose flight id resolves to
no plan and continues with the rest of the queue; and when the queue is
non-empty but no entry resolves, the call returns the no-eligible-flight
result with exit code 0 (a success), appends no audit event, and removes
nothing. -/
theorem planos_ausentes_sao_pulados :
    (∀ (planos : List Plano) (r : QRec) (q : List QRec),
      find_plan_by_voo planos r.voo = none →
      findEligible planos (r :: q)
        = (findEligible planos q).map (fun p => (p.1 + 1, p.2))) ∧
    (∀ (pistas : List (String × String)) (notams : List Notam) (metars : List MetarEntry)
       (planos : List Plano) (log : List LogLine) (tod : Nat) (nowAbs : Int)
       (modo pista : String) (qd qp : List QRec),
      pistas.lookup pista = some "ABERTA" →
      notam_blocks_pista notams pista tod = false →
      (can_operate_due_to_vis (active_metar_for_now metars tod) == 1
          && recent_auth log nowAbs) = false →
      (if modo = "decolagem" then qd else qp) ≠ [] →
      (∀ r ∈ (if modo = "decolagem" then qd else qp),
        find_plan_by_voo planos r.voo = none) →
      cmd_autorizar pistas notams metars planos log tod nowAbs modo pista qd qp
          = (.nenhumElegivel, qd, qp) ∧
      exit_code (cmd_autorizar pistas notams metars planos log tod nowAbs modo pista
          qd qp).1 = 0 ∧
      events_of (cmd_autorizar pistas notams metars planos log tod nowAbs modo pista
          qd qp).1 = []) := by
  constructor
  · exact findEligible_skip
  · intro pistas notams metars planos log tod nowAbs modo pista qd qp
      hlook hnb hvis hne hall
    have hfe : findEligible planos (if modo = "decolagem" then qd else qp) = none :=
      findEligible_none planos _ hall
    have hmain : cmd_autorizar pistas notams metars planos log tod nowAbs modo pista qd qp
        = (.nenhumElegivel, qd, qp) := by
      cases hq : (if modo = "decolagem" then qd else qp) with
      | nil => exact absurd hq hne
      | cons a as =>
        rw [hq] at hfe
        simp [cmd_autorizar, hlook, hnb, hvis, hq, hfe]
    exact ⟨hmain, by rw [hmain]; rfl, by rw [hmain]; rfl⟩

theorem planos_ausentes_witness :
    findEligible [] (recAZ100 :: [recAZ999])
        = (findEligible [] [recAZ999]).map (fun p => (p.1 + 1, p.2)) ∧
    cmd_autorizar [("10/28", "ABERTA")] [] [] [] [] 900 10000 "decolagem" "10/28"
        [recAZ100] [] = (.nenhumElegivel, [recAZ100], []) ∧
    exit_code (cmd_autorizar [("10/28", "ABERTA")] [] [] [] [] 900 10000 "decolagem"
        "10/28" [recAZ100] []).1 = 0 ∧
    events_of (cmd_autorizar [("10/28", "ABERTA")] [] [] [] [] 900 10000 "decolagem"
        "10/28" [recAZ100] []).1 = [] :=
  ⟨planos_ausentes_sao_pulados.1 [] recAZ100 [recAZ999] (by decide),
   planos_ausentes_sao_pulados.2 [("10/28", "ABERTA")] [] [] [] [] 900 10000
     "decolagem" "10/28" [recAZ100] [] (by decide) (by decide) (by decide)
     (by decide) (by decide)⟩

/-- Dissection of a successful `cmd_autorizar` call: the scan selected some
index of the chosen queue, the authorized flight is that record's, the
chosen queue lost exactly that index (`eraseIdx`), and the other queue is
unchanged. -/
theorem autorizado_implies
    (pistas : List (String × String)) (notams : List Notam) (metars : List MetarEntry)
    (planos : List Plano) (log : List LogLine) (tod : Nat) (nowAbs : Int)
    (modo pista : String) (qd qp : List QRec) (v : String) (qd2 qp2 : List QRec)
    (h : cmd_autorizar pistas notams metars planos log tod nowAbs modo pista qd qp
        = (.autorizado v, qd2, qp2)) :
    ∃ i r, v = r.voo ∧
      ((modo = "decolagem" ∧ findEligible planos qd = some (i, r) ∧
          qd2 = qd.eraseIdx i ∧ qp2 = qp) ∨
       (modo ≠ "decolagem" ∧ findEligible planos qp = some (i, r) ∧
          qd2 = qd ∧ qp2 = qp.eraseIdx i)) := by
  revert h
  unfold cmd_autorizar
  repeat' split
  all_goals intro h
  all_goals simp only [Prod.mk.injEq] at h
  all_goals first
    | exact absurd h.1 (fun hc => AutResult.noConfusion hc)
    | skip
  · rename_i i r heq hmodo
    rw [if_pos hmodo] at heq
    obtain ⟨h1, h2, h3⟩ := h
    exact ⟨i, r, by simpa using h1.symm,
      Or.inl ⟨by simpa using hmodo, heq, h2.symm, h3.symm⟩⟩
  · rename_i i r heq hmodo
    rw [if_neg hmodo] at heq
    obtain ⟨h1, h2, h3⟩ := h
    exact ⟨i, r, by simpa using h1.symm,
      Or.inr ⟨by simpa using hmodo, heq, h2.symm, h3.symm⟩⟩

/-- C10: a successful authorization removes exactly the entry the scan
selected — the chosen queue becomes `take i ++ drop (i+1)`, so every other
entry keeps its field values and relative order — and the other queue is
untouched. -/
theorem autorizacao_remove_apenas_selecionado
    (pistas : List (String × String)) (notams : List Notam) (metars : List MetarEntry)
    (planos : List Plano) (log : List LogLine) (tod : Nat) (nowAbs : Int)
    (modo pista : String) (qd qp : List QRec) (v : String) (qd2 qp2 : List QRec)
    (h : cmd_autorizar pistas notams metars planos log tod nowAbs modo pista qd qp
        = (.autorizado v, qd2, qp2)) :
    ∃ i r, v = r.voo ∧
      ((modo = "decolagem" ∧ findEligible planos qd = some (i, r) ∧
          qd2 = qd.take i ++ qd.drop (i + 1) ∧ qp2 = qp) ∨
       (modo ≠ "decolagem" ∧ findEligible planos qp = some (i, r) ∧
          qd2 = qd ∧ qp2 = qp.take i ++ qp.drop (i + 1))) := by
  obtain ⟨i, r, hv, hcase⟩ :=
    autorizado_implies pistas notams metars planos log tod nowAbs modo pista qd qp
      v qd2 qp2 h
  refine ⟨i, r, hv, ?_⟩
  rcases hcase with ⟨hm, hfe, h2, h3⟩ | ⟨hm, hfe, h2, h3⟩
  · exact Or.inl ⟨hm, hfe, by rw [h2, List.eraseIdx_eq_take_drop_succ], h3⟩
  · exact Or.inr ⟨hm, hfe, h2, by rw [h3, List.eraseIdx_eq_take_drop_succ]⟩

theorem autorizacao_remove_witness :
    ∃ i r, "AZ100" = QRec.voo r ∧
      (("decolagem" = "decolagem" ∧
          findEligible [pAZ100, pAZ999] [recAZ100, recAZ999] = some (i, r) ∧
          [recAZ999] = [recAZ100, recAZ999].take i ++ [recAZ100, recAZ999].drop (i + 1) ∧
          ([] : List QRec) = []) ∨
       ("decolagem" ≠ "decolagem" ∧ findEligible [pAZ100, pAZ999] [] = some (i, r) ∧
          [recAZ999] = [recAZ100, recAZ999] ∧
          ([] : List QRec) = [].take i ++ [].drop (i + 1))) :=
  autorizacao_remove_apenas_selecionado [("10/28", "ABERTA")] [] [] [pAZ100, pAZ999] []
    900 10000 "decolagem" "10/28" [recAZ100, recAZ999] [] "AZ100" [recAZ999] []
    (by decide)

end Torre
